import Mathlib

/-!
Shallow embedding of the `pngcheck` chunk-layer decoder (`src/decoder.rs`).

The repository ships a single source file, `src/decoder.rs`.  Its sibling
modules (`buffer.rs`, `chunk.rs`, `color_type.rs`, `bit_depth.rs`,
`interlace_method.rs`, `error.rs`) are declared by `use` statements but are
not present; their behaviour is modelled from the specification where
needed (each such definition's doc comment starts with
`Modelled from the spec:`).  Everything else is translated directly from
`src/decoder.rs`.

Bytes are modelled as `Nat` values (each byte `< 256` on real inputs; the
arithmetic below never depends on that bound).  Rust `Result` together with
the reachable `panic!`/`expect` calls of `decoder.rs` are modelled by the
three-way `Outcome` type: a Rust panic is an `Outcome.panicked msg`, never
a typed error.
-/

/-- Modelled from the spec: the closed error taxonomy of §7 (the source's
`error.rs` is absent).  `decoder.rs` itself constructs `MissingSignature`,
`InvalidIHDRLength` (the spec's InvalidHeaderLength) and
`UnexpectedtRNSChunk` (the spec's UnexpectedTransparencyChunk); the cursor
produces `UnexpectedEndOfInput`; the enumeration conversions produce the
`Invalid…` variants; the remaining variants appear only in the spec's
taxonomy and are included so theorems can mention them. -/
inductive DecodeError where
  | MissingSignature
  | UnexpectedEndOfInput
  | InvalidIHDRLength
  | UnexpectedtRNSChunk
  | UnknownChunkType
  | InvalidBitDepth
  | InvalidColorType
  | InvalidInterlaceMethod
  | MissingHeaderState
  | ChecksumMismatch
  | InvalidPaletteLength
  | TooManyPaletteEntries
  | InvalidGammaLength
  deriving DecidableEq, Repr

/-- Result of running a piece of the decoder: a value, a typed error
(Rust `Err`), or a Rust panic (`panic!` / `.expect` / `.unwrap`).  The
panic carries the panic message. -/
inductive Outcome (α : Type) where
  | ok : α → Outcome α
  | err : DecodeError → Outcome α
  | panicked : String → Outcome α
  deriving DecidableEq, Repr

/-- Modelled from the spec: the color model enumeration of §3
(`color_type.rs` is absent).  `decoder.rs` names the variants
`ColorType::_0 | _2 | _3 | _4 | _6`, the standard numeric codes:
0 Grayscale, 2 Truecolor, 3 Indexed, 4 GrayscaleAlpha, 6 TruecolorAlpha. -/
inductive ColorType where
  | t0  -- Grayscale
  | t2  -- Truecolor
  | t3  -- Indexed
  | t4  -- GrayscaleAlpha
  | t6  -- TruecolorAlpha
  deriving DecidableEq, Repr

/-- Modelled from the spec: `TryFrom<u8>` for the color model; codes other
than 0,2,3,4,6 are rejected. -/
def ColorType.try_from (v : Nat) : Outcome ColorType :=
  if v = 0 then .ok .t0
  else if v = 2 then .ok .t2
  else if v = 3 then .ok .t3
  else if v = 4 then .ok .t4
  else if v = 6 then .ok .t6
  else .err .InvalidColorType

/-- Modelled from the spec: bit depth ∈ {1,2,4,8,16} (`bit_depth.rs` is
absent). -/
inductive BitDepth where
  | d1 | d2 | d4 | d8 | d16
  deriving DecidableEq, Repr

/-- Modelled from the spec: `TryFrom<u8>` for the bit depth. -/
def BitDepth.try_from (v : Nat) : Outcome BitDepth :=
  if v = 1 then .ok .d1
  else if v = 2 then .ok .d2
  else if v = 4 then .ok .d4
  else if v = 8 then .ok .d8
  else if v = 16 then .ok .d16
  else .err .InvalidBitDepth

/-- Modelled from the spec: interlace method ∈ {None(0), Adam7(1)}
(`interlace_method.rs` is absent). -/
inductive InterlaceMethod where
  | noInterlace | adam7
  deriving DecidableEq, Repr

/-- Modelled from the spec: `TryFrom<u8>` for the interlace method. -/
def InterlaceMethod.try_from (v : Nat) : Outcome InterlaceMethod :=
  if v = 0 then .ok .noInterlace
  else if v = 1 then .ok .adam7
  else .err .InvalidInterlaceMethod

/-- The chunk types matched exhaustively (no fallback arm) by
`Decoder::read_chunk` in `src/decoder.rs`. -/
inductive ChunkType where
  | IHDR | IDAT | IEND | gAMA | PLTE | bKGD | tRNS
  deriving DecidableEq, Repr

/-- Modelled from the spec: the tag registry resolving a 4-byte ASCII tag
(`chunk.rs` with `TryFrom<&[u8]> for ChunkType` is absent).  The seven
tags are the ones `decoder.rs` dispatches on; any other tag fails. -/
def ChunkType.try_from (bs : List Nat) : Outcome ChunkType :=
  if bs = [73, 72, 68, 82] then .ok .IHDR        -- "IHDR"
  else if bs = [73, 68, 65, 84] then .ok .IDAT   -- "IDAT"
  else if bs = [73, 69, 78, 68] then .ok .IEND   -- "IEND"
  else if bs = [103, 65, 77, 65] then .ok .gAMA  -- "gAMA"
  else if bs = [80, 76, 84, 69] then .ok .PLTE   -- "PLTE"
  else if bs = [98, 75, 71, 68] then .ok .bKGD   -- "bKGD"
  else if bs = [116, 82, 78, 83] then .ok .tRNS  -- "tRNS"
  else .err .UnknownChunkType

/-- Modelled from the spec: the Cursor of §3/§4.1 (`buffer.rs` is absent):
an immutable byte sequence with a monotone position. -/
structure Buffer where
  bytes : List Nat
  pos : Nat
  deriving DecidableEq, Repr

/-- Modelled from the spec: `Buffer::new` wraps the byte sequence at
position 0. -/
def Buffer.new (bytes : List Nat) : Buffer := ⟨bytes, 0⟩

/-- Modelled from the spec: `read_n(k)` returns the next `k` bytes and
advances the position by `k`; it fails with `UnexpectedEndOfInput` when
fewer than `k` bytes remain, with no partial read and no advance. -/
def Buffer.read_n (b : Buffer) (k : Nat) : Outcome (List Nat × Buffer) :=
  if b.pos + k ≤ b.bytes.length then
    .ok ((b.bytes.drop b.pos).take k, ⟨b.bytes, b.pos + k⟩)
  else
    .err .UnexpectedEndOfInput

/-- Modelled from the spec: one-byte read built atop `read_n`. -/
def Buffer.read_u8 (b : Buffer) : Outcome (Nat × Buffer) :=
  match b.read_n 1 with
  | .ok (bs, b') => .ok (bs.headI, b')
  | .err e => .err e
  | .panicked m => .panicked m

/-- Modelled from the spec: two-byte big-endian read built atop `read_n`. -/
def Buffer.read_u16 (b : Buffer) : Outcome (Nat × Buffer) :=
  match b.read_n 2 with
  | .ok (bs, b') => .ok (bs.headI * 256 + bs.tail.headI, b')
  | .err e => .err e
  | .panicked m => .panicked m

/-- Modelled from the spec: four-byte big-endian read built atop
`read_n`. -/
def Buffer.read_u32 (b : Buffer) : Outcome (Nat × Buffer) :=
  match b.read_n 4 with
  | .ok (bs, b') =>
      .ok (bs.headI * 16777216 + bs.tail.headI * 65536 +
           bs.tail.tail.headI * 256 + bs.tail.tail.tail.headI, b')
  | .err e => .err e
  | .panicked m => .panicked m

/-- Modelled from the spec (§3 data model; `chunk.rs` is absent): payload
of a Background chunk, as used by `Decoder::read_bkgd_chunk_data`. -/
inductive BackgroundData where
  | Grayscale : Nat → BackgroundData
  | RGB : Nat × Nat × Nat → BackgroundData
  | PaletteIndex : Nat → BackgroundData
  deriving DecidableEq, Repr

/-- Modelled from the spec (§3 data model; `chunk.rs` is absent): payload
of a Transparency chunk, as used by `Decoder::read_trns_chunk_data`. -/
inductive TransparencyData where
  | Graysample : Nat → TransparencyData
  | RGB : Nat × Nat × Nat → TransparencyData
  | PaletteIndices : List Nat → TransparencyData
  deriving DecidableEq, Repr

/-- The tagged chunk payload union (`ChunkData` of `chunk.rs`, absent;
variants and fields as constructed by `decoder.rs`).  The source stores
the gamma value as `f64 = raw / 100000.0`; floating point is out of the
embedding, so the raw four-byte integer is kept (`gAMA rawGamma` stands
for `image_gamma = rawGamma / 100000.0`, an injective renaming of the
value). -/
inductive ChunkData where
  | IHDR (width height : Nat) (bit_depth : BitDepth) (color_type : ColorType)
         (compression_method filter_method : Nat)
         (interlace_method : InterlaceMethod)
  | IDAT : List Nat → ChunkData
  | IEND
  | gAMA (rawGamma : Nat)
  | PLTE : List (Nat × Nat × Nat) → ChunkData
  | bKGD : BackgroundData → ChunkData
  | tRNS : TransparencyData → ChunkData
  deriving DecidableEq, Repr

/-- A decoded chunk record (`Chunk` of `chunk.rs`, absent; the four fields
are exactly the ones `Decoder::read_chunk` fills in). -/
structure Chunk where
  length : Nat
  ty : ChunkType
  data : ChunkData
  crc : Nat
  deriving DecidableEq, Repr

/-- `Decoder` of `src/decoder.rs`: the cursor plus the growing ordered
chunk list (`Vec::push` appends at the end of the list). -/
structure Decoder where
  buffer : Buffer
  chunks : List Chunk
  deriving DecidableEq, Repr

/-- `PNG_SIGNATURE` of `src/decoder.rs` line 13. -/
def PNG_SIGNATURE : List Nat := [137, 80, 78, 71, 13, 10, 26, 10]

/-- `Decoder::new` (`decoder.rs` lines 15–20). -/
def Decoder.new (bytes : List Nat) : Decoder := ⟨Buffer.new bytes, []⟩

/-- `Decoder::get_color_type` (`decoder.rs` lines 42–52): inspects the
FIRST decoded chunk; `.expect(…)` on an empty list and the Rust panic
macro on a non-IHDR first chunk are panics, modelled as
`Outcome.panicked`.  The second message is the source message with the
contraction spelled out. -/
def get_color_type (chunks : List Chunk) : Outcome ColorType :=
  match chunks.head? with
  | none => .panicked "the ihdr chunk should have already been decoded"
  | some ihdr =>
    match ihdr.data with
    | .IHDR _ _ _ color_type _ _ _ => .ok color_type
    | _ => .panicked "the first chunk was not an ihdr"

/-- `Decoder::read_signature` (`decoder.rs` lines 54–62). -/
def read_signature (b : Buffer) : Outcome Buffer :=
  match b.read_n 8 with
  | .ok (items, b') =>
      if items = PNG_SIGNATURE then .ok b' else .err .MissingSignature
  | .err e => .err e
  | .panicked m => .panicked m

/-- `Decoder::read_ihdr_chunk_data` (`decoder.rs` lines 92–120).  The
length-13 guard comes first; then the seven fields in fixed order.  The
two `read_u8` for compression/filter methods are consumed but the record
stores 0 for both, as the source does. -/
def read_ihdr_chunk_data (length : Nat) (b : Buffer) :
    Outcome (ChunkData × Buffer) :=
  if length ≠ 13 then .err .InvalidIHDRLength
  else
    match b.read_u32 with
    | .err e => .err e | .panicked m => .panicked m
    | .ok (width, b) =>
    match b.read_u32 with
    | .err e => .err e | .panicked m => .panicked m
    | .ok (height, b) =>
    match b.read_u8 with
    | .err e => .err e | .panicked m => .panicked m
    | .ok (bdv, b) =>
    match BitDepth.try_from bdv with
    | .err e => .err e | .panicked m => .panicked m
    | .ok bit_depth =>
    match b.read_u8 with
    | .err e => .err e | .panicked m => .panicked m
    | .ok (ctv, b) =>
    match ColorType.try_from ctv with
    | .err e => .err e | .panicked m => .panicked m
    | .ok color_type =>
    match b.read_u8 with
    | .err e => .err e | .panicked m => .panicked m
    | .ok (_, b) =>
    match b.read_u8 with
    | .err e => .err e | .panicked m => .panicked m
    | .ok (_, b) =>
    match b.read_u8 with
    | .err e => .err e | .panicked m => .panicked m
    | .ok (imv, b) =>
    match InterlaceMethod.try_from imv with
    | .err e => .err e | .panicked m => .panicked m
    | .ok interlace_method =>
      .ok (.IHDR width height bit_depth color_type 0 0 interlace_method, b)

/-- `Decoder::read_idat_chunk_data` (`decoder.rs` lines 122–127): reads
exactly `length` raw payload bytes.  (`length.try_into().unwrap()` is the
infallible u32→usize widening; on `Nat` it is the identity.) -/
def read_idat_chunk_data (length : Nat) (b : Buffer) :
    Outcome (ChunkData × Buffer) :=
  match b.read_n length with
  | .ok (bytes, b') => .ok (.IDAT bytes, b')
  | .err e => .err e
  | .panicked m => .panicked m

/-- `Decoder::read_gama_chunk_data` (`decoder.rs` lines 129–137): the
declared length is IGNORED (`_length`; the source carries a
`TODO: check length is 4`) and four value bytes are always read. -/
def read_gama_chunk_data (_length : Nat) (b : Buffer) :
    Outcome (ChunkData × Buffer) :=
  match b.read_u32 with
  | .ok (raw, b') => .ok (.gAMA raw, b')
  | .err e => .err e
  | .panicked m => .panicked m

/-- The `for _ in 0..(length / 3)` loop of `read_plte_chunk_data`:
reads `n` (red, green, blue) byte triples in file order. -/
def read_plte_entries (n : Nat) (b : Buffer) :
    Outcome (List (Nat × Nat × Nat) × Buffer) :=
  match n with
  | 0 => .ok ([], b)
  | n + 1 =>
    match b.read_u8 with
    | .err e => .err e | .panicked m => .panicked m
    | .ok (r, b) =>
    match b.read_u8 with
    | .err e => .err e | .panicked m => .panicked m
    | .ok (g, b) =>
    match b.read_u8 with
    | .err e => .err e | .panicked m => .panicked m
    | .ok (bl, b) =>
    match read_plte_entries n b with
    | .err e => .err e | .panicked m => .panicked m
    | .ok (rest, b) => .ok ((r, g, bl) :: rest, b)

/-- `Decoder::read_plte_chunk_data` (`decoder.rs` lines 139–152): no
validation of the declared length at all — it reads `length / 3`
(integer division) triples and succeeds. -/
def read_plte_chunk_data (length : Nat) (b : Buffer) :
    Outcome (ChunkData × Buffer) :=
  match read_plte_entries (length / 3) b with
  | .ok (entries, b') => .ok (.PLTE entries, b')
  | .err e => .err e
  | .panicked m => .panicked m

/-- `Decoder::read_bkgd_chunk_data` (`decoder.rs` lines 154–174): the
payload shape is dispatched on `get_color_type` (the declared length is
ignored, `_length`). -/
def read_bkgd_chunk_data (chunks : List Chunk) (_length : Nat) (b : Buffer) :
    Outcome (ChunkData × Buffer) :=
  match get_color_type chunks with
  | .err e => .err e | .panicked m => .panicked m
  | .ok ct =>
    match ct with
    | .t0 | .t4 =>
      match b.read_u16 with
      | .err e => .err e | .panicked m => .panicked m
      | .ok (grayscale, b') => .ok (.bKGD (.Grayscale grayscale), b')
    | .t2 | .t6 =>
      match b.read_u16 with
      | .err e => .err e | .panicked m => .panicked m
      | .ok (red, b) =>
      match b.read_u16 with
      | .err e => .err e | .panicked m => .panicked m
      | .ok (green, b) =>
      match b.read_u16 with
      | .err e => .err e | .panicked m => .panicked m
      | .ok (blue, b) => .ok (.bKGD (.RGB (red, green, blue)), b)
    | .t3 =>
      match b.read_u8 with
      | .err e => .err e | .panicked m => .panicked m
      | .ok (palette_index, b') => .ok (.bKGD (.PaletteIndex palette_index), b')

/-- The `for _ in 0..length` loop of `read_trns_chunk_data` under the
indexed color model: reads `n` palette-index bytes in file order. -/
def read_trns_indices (n : Nat) (b : Buffer) :
    Outcome (List Nat × Buffer) :=
  match n with
  | 0 => .ok ([], b)
  | n + 1 =>
    match b.read_u8 with
    | .err e => .err e | .panicked m => .panicked m
    | .ok (i, b) =>
    match read_trns_indices n b with
    | .err e => .err e | .panicked m => .panicked m
    | .ok (rest, b) => .ok (i :: rest, b)

/-- `Decoder::read_trns_chunk_data` (`decoder.rs` lines 176–206):
dispatched on `get_color_type`; color types 4 and 6 (the alpha-bearing
models) are rejected with `UnexpectedtRNSChunk`. -/
def read_trns_chunk_data (chunks : List Chunk) (length : Nat) (b : Buffer) :
    Outcome (ChunkData × Buffer) :=
  match get_color_type chunks with
  | .err e => .err e | .panicked m => .panicked m
  | .ok ct =>
    match ct with
    | .t0 =>
      match b.read_u16 with
      | .err e => .err e | .panicked m => .panicked m
      | .ok (graysample, b') => .ok (.tRNS (.Graysample graysample), b')
    | .t2 =>
      match b.read_u16 with
      | .err e => .err e | .panicked m => .panicked m
      | .ok (red, b) =>
      match b.read_u16 with
      | .err e => .err e | .panicked m => .panicked m
      | .ok (green, b) =>
      match b.read_u16 with
      | .err e => .err e | .panicked m => .panicked m
      | .ok (blue, b) => .ok (.tRNS (.RGB (red, green, blue)), b)
    | .t3 =>
      match read_trns_indices length b with
      | .err e => .err e | .panicked m => .panicked m
      | .ok (indices, b') => .ok (.tRNS (.PaletteIndices indices), b')
    | .t4 | .t6 => .err .UnexpectedtRNSChunk

/-- The dispatch `match ty { … }` of `Decoder::read_chunk`
(`decoder.rs` lines 69–77).  Every per-chunk reader only consumes from
the buffer and (for bKGD/tRNS) consults the chunk list read-only, exactly
as in the source. -/
def read_chunk_data (chunks : List Chunk) (ty : ChunkType) (length : Nat)
    (b : Buffer) : Outcome (ChunkData × Buffer) :=
  match ty with
  | .IHDR => read_ihdr_chunk_data length b
  | .IDAT => read_idat_chunk_data length b
  | .IEND => .ok (.IEND, b)
  | .gAMA => read_gama_chunk_data length b
  | .PLTE => read_plte_chunk_data length b
  | .bKGD => read_bkgd_chunk_data chunks length b
  | .tRNS => read_trns_chunk_data chunks length b

/-- `Decoder::read_chunk` (`decoder.rs` lines 65–89): length, tag,
payload, stored CRC — the stored CRC is READ AND RECORDED but never
recomputed or compared — then the completed chunk is appended. -/
def read_chunk (d : Decoder) : Outcome Decoder :=
  match d.buffer.read_u32 with
  | .err e => .err e | .panicked m => .panicked m
  | .ok (length, b) =>
  match b.read_n 4 with
  | .err e => .err e | .panicked m => .panicked m
  | .ok (tagBytes, b) =>
  match ChunkType.try_from tagBytes with
  | .err e => .err e | .panicked m => .panicked m
  | .ok ty =>
  match read_chunk_data d.chunks ty length b with
  | .err e => .err e | .panicked m => .panicked m
  | .ok (data, b) =>
  match b.read_u32 with
  | .err e => .err e | .panicked m => .panicked m
  | .ok (crc, b) =>
    .ok ⟨b, d.chunks ++ [⟨length, ty, data, crc⟩]⟩

/-- The `while self.chunks.last().unwrap().ty != ChunkType::IEND` loop of
`Decoder::decode` (`decoder.rs` lines 31–33).  `.last().unwrap()` on an
empty list is a Rust panic.  The loop is driven by fuel; each successful
`read_chunk` consumes at least 12 bytes, so `decode` supplies ample fuel
and the `"out of fuel"` branch is unreachable from it. -/
def decode_loop (fuel : Nat) (d : Decoder) : Outcome Decoder :=
  match fuel with
  | 0 => .panicked "out of fuel"
  | fuel + 1 =>
    match d.chunks.getLast? with
    | none => .panicked "called Option unwrap on a None value"
    | some c =>
      if c.ty = ChunkType.IEND then .ok d
      else
        match read_chunk d with
        | .err e => .err e | .panicked m => .panicked m
        | .ok d' => decode_loop fuel d'

/-- `Decoder::decode` (`decoder.rs` lines 24–40): signature, one
mandatory `read_chunk`, then the loop until an IEND chunk is last.  It
returns `Ok(())` — the unit value is the caller-facing result; the chunk
list stays inside the (mutated) decoder state and is only printed.  The
`println!` loop has no effect on the value and is not modelled. -/
def decode (d : Decoder) : Outcome (Unit × Decoder) :=
  match read_signature d.buffer with
  | .err e => .err e | .panicked m => .panicked m
  | .ok b =>
  match read_chunk ⟨b, d.chunks⟩ with
  | .err e => .err e | .panicked m => .panicked m
  | .ok d1 =>
  match decode_loop (d1.buffer.bytes.length + 1) d1 with
  | .err e => .err e | .panicked m => .panicked m
  | .ok d2 => .ok ((), d2)

/-! ### Concrete inputs and the reference checksum -/

/-- Modelled from the spec: the standard 32-bit cyclic redundancy check
(reflected polynomial 0xEDB88320), one bit of one byte. -/
def crc32_step_bit (c : Nat) : Nat :=
  if c % 2 = 1 then Nat.xor 3988292384 (c / 2) else c / 2

/-- Modelled from the spec: folding one byte into the running 32-bit
cyclic redundancy check register. -/
def crc32_step_byte (c : Nat) (byte : Nat) : Nat :=
  (crc32_step_bit ∘ crc32_step_bit ∘ crc32_step_bit ∘ crc32_step_bit ∘
   crc32_step_bit ∘ crc32_step_bit ∘ crc32_step_bit ∘ crc32_step_bit)
    (Nat.xor c byte)

/-- Modelled from the spec: the standard 32-bit cyclic redundancy check of
a byte sequence, as the checksum the spec requires to be recomputed "over
the tag bytes and the payload bytes actually read".  (Checked below
against the published value for the IEND tag.) -/
def crc32 (data : List Nat) : Nat :=
  Nat.xor (data.foldl crc32_step_byte 4294967295) 4294967295

/-- Signature, then a Background chunk (declared length 1) as the very
first chunk: no ImageHeader has been decoded when `read_bkgd_chunk_data`
asks for the color type. -/
def c1_bkgd_input : List Nat := PNG_SIGNATURE ++ [0,0,0,1] ++ [98,75,71,68]

/-- Signature, then a Transparency chunk (declared length 1) as the very
first chunk. -/
def c1_trns_input : List Nat := PNG_SIGNATURE ++ [0,0,0,1] ++ [116,82,78,83]

/-- Signature, then a single IEND chunk whose stored checksum is 0 —
not the checksum of its tag and (empty) payload, which is 2923585666. -/
def c2_crc0_input : List Nat := PNG_SIGNATURE ++ [0,0,0,0, 73,69,78,68, 0,0,0,0]

/-- A well-formed IEND chunk record with stored checksum 0. -/
def iend_chunk_bytes : List Nat := [0,0,0,0, 73,69,78,68, 0,0,0,0]

/-- A Gamma chunk with declared length 0 (ILLEGAL per the spec: must be 4)
followed by four value bytes encoding 45455 and a stored checksum,
then an IEND chunk. -/
def c4_input : List Nat :=
  PNG_SIGNATURE ++ [0,0,0,0, 103,65,77,65, 0,0,177,143, 0,0,0,0] ++ iend_chunk_bytes

/-- An ImageHeader chunk record: length 13, width 1, height 1, bit depth
8, color type 0 (Grayscale), compression 0, filter 0, interlace 0. -/
def ihdr_chunk_bytes : List Nat :=
  [0,0,0,13] ++ [73,72,68,82] ++ [0,0,0,1, 0,0,0,1, 8, 0, 0, 0, 0] ++ [0,0,0,0]

/-- An ImageData chunk record with two payload bytes. -/
def idat_chunk_bytes : List Nat := [0,0,0,2] ++ [73,68,65,84] ++ [7,9] ++ [0,0,0,0]

/-- The spec's §8.8 well-formed end-to-end input:
signature ++ ImageHeader ++ ImageData ++ ImageTrailer. -/
def wf_input : List Nat :=
  PNG_SIGNATURE ++ ihdr_chunk_bytes ++ idat_chunk_bytes ++ iend_chunk_bytes

/-- Signature, a Gamma chunk FIRST, then an ImageHeader declaring color
type 6 (TruecolorAlpha), then a Transparency chunk.  The header is
decoded, but it is not the first chunk in the list. -/
def c8_misordered_input : List Nat :=
  PNG_SIGNATURE
  ++ [0,0,0,4, 103,65,77,65, 0,0,177,143, 0,0,0,0]
  ++ [0,0,0,13, 73,72,68,82, 0,0,0,1, 0,0,0,1, 8, 6, 0, 0, 0, 0,0,0,0]
  ++ [0,0,0,0, 116,82,78,83]

/-- Signature, a Gamma chunk whose DECLARED length is 1000 although only
20 bytes remain in the stream after its tag, then an IEND chunk.  The
whole input is 36 bytes. -/
def c9_input : List Nat :=
  PNG_SIGNATURE ++ [0,0,3,232, 103,65,77,65, 0,0,177,143, 0,0,0,0] ++ iend_chunk_bytes

/-- Signature, then one IEND chunk with stored checksum 7. -/
def c10_input : List Nat := PNG_SIGNATURE ++ [0,0,0,0, 73,69,78,68, 0,0,0,7]

/-! ### Helper lemmas: which computations can panic, and with what
message.  The cursor and the enumeration conversions never panic; every
panic of the decoder originates in `get_color_type`. -/

theorem Buffer.read_n_no_panic (b : Buffer) (k : Nat) (m : String) :
    b.read_n k ≠ .panicked m := by
  unfold Buffer.read_n; split <;> simp

theorem Buffer.read_u8_no_panic (b : Buffer) (m : String) :
    b.read_u8 ≠ .panicked m := by
  unfold Buffer.read_u8
  split <;> simp_all [Buffer.read_n_no_panic]

theorem Buffer.read_u16_no_panic (b : Buffer) (m : String) :
    b.read_u16 ≠ .panicked m := by
  unfold Buffer.read_u16
  split <;> simp_all [Buffer.read_n_no_panic]

theorem Buffer.read_u32_no_panic (b : Buffer) (m : String) :
    b.read_u32 ≠ .panicked m := by
  unfold Buffer.read_u32
  split <;> simp_all [Buffer.read_n_no_panic]

theorem color_type_conv_no_panic (v : Nat) (m : String) :
    ColorType.try_from v ≠ .panicked m := by
  unfold ColorType.try_from
  repeat' split
  all_goals simp

theorem bit_depth_conv_no_panic (v : Nat) (m : String) :
    BitDepth.try_from v ≠ .panicked m := by
  unfold BitDepth.try_from
  repeat' split
  all_goals simp

theorem interlace_conv_no_panic (v : Nat) (m : String) :
    InterlaceMethod.try_from v ≠ .panicked m := by
  unfold InterlaceMethod.try_from
  repeat' split
  all_goals simp

theorem chunk_type_conv_no_panic (bs : List Nat) (m : String) :
    ChunkType.try_from bs ≠ .panicked m := by
  unfold ChunkType.try_from
  repeat' split
  all_goals simp

theorem get_color_type_panic (chunks : List Chunk) (m : String)
    (h : get_color_type chunks = .panicked m) :
    m = "the ihdr chunk should have already been decoded" ∨
    m = "the first chunk was not an ihdr" := by
  unfold get_color_type at h
  split at h
  · simp at h
    exact Or.inl h.symm
  · split at h
    · cases h
    · simp at h
      exact Or.inr h.symm

theorem read_ihdr_no_panic (length : Nat) (b : Buffer) (m : String) :
    read_ihdr_chunk_data length b ≠ .panicked m := by
  unfold read_ihdr_chunk_data
  repeat' split
  all_goals simp_all [Buffer.read_u32_no_panic, Buffer.read_u8_no_panic,
    bit_depth_conv_no_panic, color_type_conv_no_panic,
    interlace_conv_no_panic]

theorem read_idat_no_panic (length : Nat) (b : Buffer) (m : String) :
    read_idat_chunk_data length b ≠ .panicked m := by
  unfold read_idat_chunk_data
  repeat' split
  all_goals simp_all [Buffer.read_n_no_panic]

theorem read_gama_no_panic (length : Nat) (b : Buffer) (m : String) :
    read_gama_chunk_data length b ≠ .panicked m := by
  unfold read_gama_chunk_data
  repeat' split
  all_goals simp_all [Buffer.read_u32_no_panic]

theorem read_plte_entries_no_panic (n : Nat) (b : Buffer) (m : String) :
    read_plte_entries n b ≠ .panicked m := by
  induction n generalizing b m with
  | zero => unfold read_plte_entries; simp
  | succ n ih =>
    unfold read_plte_entries
    repeat' split
    all_goals simp_all [Buffer.read_u8_no_panic]

theorem read_plte_no_panic (length : Nat) (b : Buffer) (m : String) :
    read_plte_chunk_data length b ≠ .panicked m := by
  unfold read_plte_chunk_data
  repeat' split
  all_goals simp_all [read_plte_entries_no_panic]

theorem read_trns_indices_no_panic (n : Nat) (b : Buffer) (m : String) :
    read_trns_indices n b ≠ .panicked m := by
  induction n generalizing b m with
  | zero => unfold read_trns_indices; simp
  | succ n ih =>
    unfold read_trns_indices
    repeat' split
    all_goals simp_all [Buffer.read_u8_no_panic]

theorem read_bkgd_panic (chunks : List Chunk) (length : Nat) (b : Buffer)
    (m : String) (h : read_bkgd_chunk_data chunks length b = .panicked m) :
    m = "the ihdr chunk should have already been decoded" ∨
    m = "the first chunk was not an ihdr" := by
  unfold read_bkgd_chunk_data at h
  repeat' split at h
  all_goals try cases h
  all_goals
    first
      | exact get_color_type_panic chunks _ (by assumption)
      | simp_all [Buffer.read_u16_no_panic, Buffer.read_u8_no_panic]

theorem read_trns_panic (chunks : List Chunk) (length : Nat) (b : Buffer)
    (m : String) (h : read_trns_chunk_data chunks length b = .panicked m) :
    m = "the ihdr chunk should have already been decoded" ∨
    m = "the first chunk was not an ihdr" := by
  unfold read_trns_chunk_data at h
  repeat' split at h
  all_goals try cases h
  all_goals
    first
      | exact get_color_type_panic chunks _ (by assumption)
      | simp_all [Buffer.read_u16_no_panic, Buffer.read_u8_no_panic,
          read_trns_indices_no_panic]

theorem read_chunk_data_panic (chunks : List Chunk) (ty : ChunkType)
    (length : Nat) (b : Buffer) (m : String)
    (h : read_chunk_data chunks ty length b = .panicked m) :
    m = "the ihdr chunk should have already been decoded" ∨
    m = "the first chunk was not an ihdr" := by
  unfold read_chunk_data at h
  cases ty
  case IHDR => exact absurd h (read_ihdr_no_panic length b m)
  case IDAT => exact absurd h (read_idat_no_panic length b m)
  case IEND => cases h
  case gAMA => exact absurd h (read_gama_no_panic length b m)
  case PLTE => exact absurd h (read_plte_no_panic length b m)
  case bKGD => exact read_bkgd_panic chunks length b m h
  case tRNS => exact read_trns_panic chunks length b m h

theorem read_chunk_panic (d : Decoder) (m : String)
    (h : read_chunk d = .panicked m) :
    m = "the ihdr chunk should have already been decoded" ∨
    m = "the first chunk was not an ihdr" := by
  unfold read_chunk at h
  repeat' split at h
  all_goals try cases h
  all_goals
    first
      | exact read_chunk_data_panic _ _ _ _ _ (by assumption)
      | simp_all [Buffer.read_u32_no_panic, Buffer.read_n_no_panic,
          chunk_type_conv_no_panic]

theorem read_chunk_appends (d d' : Decoder) (h : read_chunk d = .ok d') :
    ∃ c, d'.chunks = d.chunks ++ [c] := by
  unfold read_chunk at h
  repeat' split at h
  all_goals cases h
  exact ⟨_, rfl⟩

theorem decode_loop_no_unwrap_panic (fuel : Nat) (d : Decoder)
    (hne : d.chunks ≠ []) :
    decode_loop fuel d ≠ .panicked "called Option unwrap on a None value" := by
  induction fuel generalizing d with
  | zero => unfold decode_loop; simp
  | succ fuel ih =>
    unfold decode_loop
    cases hl : d.chunks.getLast? with
    | none => exact absurd (List.getLast?_eq_none_iff.mp hl) hne
    | some c =>
      simp only
      split
      · simp
      · cases hrc : read_chunk d with
        | err e => simp
        | panicked m =>
          rcases read_chunk_panic d m hrc with h | h <;> subst h <;> simp
        | ok d' =>
          obtain ⟨c', hc⟩ := read_chunk_appends d d' hrc
          exact ih d' (by simp [hc])

/-! ### Claim theorems -/

/-- C1: the claim says a Background or Transparency chunk arriving before
any ImageHeader fails with the typed error MissingHeaderState and never
crashes.  The code instead panics: `get_color_type` calls `.expect` on an
empty chunk list.  On the two concrete inputs (signature followed
immediately by a bKGD, resp. tRNS, chunk) `decode` is a panic, not a
typed error. -/
theorem bkgd_or_trns_before_header_panics :
    decode (Decoder.new c1_bkgd_input) =
      .panicked "the ihdr chunk should have already been decoded" ∧
    decode (Decoder.new c1_trns_input) =
      .panicked "the ihdr chunk should have already been decoded" ∧
    decode (Decoder.new c1_bkgd_input) ≠ .err .MissingHeaderState := by
  refine ⟨by decide, by decide, by decide⟩

/-- C2: the claim says the decoder recomputes the 32-bit cyclic
redundancy check over tag and payload and fails with ChecksumMismatch on
disagreement.  The code merely stores the trailing four bytes.  Concretely:
the checksum of the IEND tag (empty payload) is 2923585666, but an IEND
chunk whose stored checksum is 0 decodes successfully — the mismatch is
never detected, and ChecksumMismatch is never returned. -/
theorem stored_crc_never_verified :
    crc32 [73, 69, 78, 68] = 2923585666 ∧
    decode (Decoder.new c2_crc0_input) =
      .ok ((), ⟨⟨c2_crc0_input, 20⟩, [⟨0, .IEND, .IEND, 0⟩]⟩) ∧
    decode (Decoder.new c2_crc0_input) ≠ .err .ChecksumMismatch := by
  refine ⟨by decide, by decide, by decide⟩

set_option maxRecDepth 8000 in
set_option maxHeartbeats 1600000 in
/-- C3: the claim says a Palette length of zero or not a multiple of 3
fails InvalidPaletteLength and more than 256 entries fails
TooManyPaletteEntries, while length 9 gives 3 triples.  The code performs
NO length validation: length 0 succeeds with an empty palette, length 10
succeeds reading 3 triples (10/3 rounded down), and length 771 succeeds
with 257 entries.  Only the positive part (length 9 → the 3 file-order
triples) holds. -/
theorem plte_length_unvalidated :
    read_plte_chunk_data 0 (Buffer.new []) = .ok (.PLTE [], ⟨[], 0⟩) ∧
    read_plte_chunk_data 10 (Buffer.new [1,2,3,4,5,6,7,8,9]) =
      .ok (.PLTE [(1,2,3),(4,5,6),(7,8,9)], ⟨[1,2,3,4,5,6,7,8,9], 9⟩) ∧
    read_plte_chunk_data 9 (Buffer.new [1,2,3,4,5,6,7,8,9]) =
      .ok (.PLTE [(1,2,3),(4,5,6),(7,8,9)], ⟨[1,2,3,4,5,6,7,8,9], 9⟩) ∧
    read_plte_chunk_data 771 (Buffer.new (List.replicate 771 7)) =
      .ok (.PLTE (List.replicate 257 (7,7,7)), ⟨List.replicate 771 7, 771⟩) := by
  refine ⟨by decide, by decide, by decide, by decide⟩

/-- C4: the claim says a Gamma chunk whose declared length is not 4 fails
InvalidGammaLength.  The code ignores the declared length entirely (the
`_length` parameter, with a TODO in the source): declared lengths 5 and 0
both succeed, reading four value bytes regardless, and a whole-stream
decode containing a zero-declared-length Gamma chunk succeeds. -/
theorem gama_length_ignored :
    read_gama_chunk_data 5 (Buffer.new [0,0,177,143]) =
      .ok (.gAMA 45455, ⟨[0,0,177,143], 4⟩) ∧
    read_gama_chunk_data 0 (Buffer.new [0,0,177,143]) =
      .ok (.gAMA 45455, ⟨[0,0,177,143], 4⟩) ∧
    decode (Decoder.new c4_input) =
      .ok ((), ⟨⟨c4_input, 36⟩,
        [⟨0, .gAMA, .gAMA 45455, 0⟩, ⟨0, .IEND, .IEND, 0⟩]⟩) := by
  refine ⟨by decide, by decide, by decide⟩

/-- C5: the claim says a successful decode returns the ordered chunk
sequence as its result value.  The code's `decode` returns
`Result<(), DecodeError>`: on the spec's own well-formed end-to-end input
the caller-facing value is the unit value `()` — the three decoded chunks
(ImageHeader, ImageData, ImageTrailer, in order) remain only in the
decoder's internal state and are printed, not returned. -/
theorem decode_returns_unit_not_chunks :
    decode (Decoder.new wf_input) =
      .ok ((), ⟨⟨wf_input, 59⟩,
        [⟨13, .IHDR, .IHDR 1 1 .d8 .t0 0 0 .noInterlace, 0⟩,
         ⟨2, .IDAT, .IDAT [7,9], 0⟩,
         ⟨0, .IEND, .IEND, 0⟩]⟩) := by decide

/-- C6: any input of at least 8 bytes whose first 8 bytes differ from the
fixed magic sequence fails with MissingSignature, whatever the remaining
bytes are.  In `decode` the signature check is the first action, before
any chunk read, and an input shorter than 8 bytes has no first 8 bytes
(the cursor fails it with UnexpectedEndOfInput instead). -/
theorem decode_missing_signature (bytes : List Nat) (h8 : 8 ≤ bytes.length)
    (hsig : bytes.take 8 ≠ PNG_SIGNATURE) :
    decode (Decoder.new bytes) = .err .MissingSignature := by
  unfold decode read_signature Decoder.new Buffer.new Buffer.read_n
  simp only [List.drop_zero, Nat.zero_add]
  rw [if_pos h8]
  simp [hsig]

/-- Witness for C6 at the concrete all-zero 8-byte input. -/
theorem decode_missing_signature_witness :
    decode (Decoder.new [0,0,0,0,0,0,0,0]) = .err .MissingSignature :=
  decode_missing_signature [0,0,0,0,0,0,0,0] (by decide) (by decide)

/-- C7: an ImageHeader chunk whose declared length is not 13 fails with
InvalidIHDRLength (the spec's InvalidHeaderLength) for EVERY buffer
content — the guard precedes any field read. -/
theorem ihdr_length_must_be_13 (length : Nat) (b : Buffer) (h : length ≠ 13) :
    read_ihdr_chunk_data length b = .err .InvalidIHDRLength := by
  unfold read_ihdr_chunk_data
  rw [if_pos h]

/-- Witness for C7 at declared length 12 on an empty buffer. -/
theorem ihdr_length_must_be_13_witness :
    read_ihdr_chunk_data 12 (Buffer.new []) = .err .InvalidIHDRLength :=
  ihdr_length_must_be_13 12 (Buffer.new []) (by decide)

/-- C8 counterexample: the claim quantifies over every input whose
DECODED ImageHeader declares an alpha-bearing color model.  On this input
the header (TruecolorAlpha) is decoded as the SECOND chunk, after a Gamma
chunk; the subsequent Transparency chunk then panics inside
`get_color_type` (first chunk is not an IHDR) instead of failing with
UnexpectedtRNSChunk. -/
theorem trns_after_nonfirst_header_panics :
    decode (Decoder.new c8_misordered_input) =
      .panicked "the first chunk was not an ihdr" ∧
    decode (Decoder.new c8_misordered_input) ≠ .err .UnexpectedtRNSChunk := by
  refine ⟨by decide, by decide⟩

/-- C8 as amended: when the decoded ImageHeader is the FIRST chunk in the
decoder's list and declares color type 4 (GrayscaleAlpha) or 6
(TruecolorAlpha), a Transparency chunk always fails with
UnexpectedtRNSChunk (the spec's UnexpectedTransparencyChunk), for every
declared length and every buffer content. -/
theorem trns_illegal_for_alpha_models (chunks : List Chunk) (c : Chunk)
    (rest : List Chunk) (w ht cm fm : Nat) (bd : BitDepth)
    (im : InterlaceMethod) (ct : ColorType)
    (hchunks : chunks = c :: rest)
    (hdata : c.data = ChunkData.IHDR w ht bd ct cm fm im)
    (hct : ct = ColorType.t4 ∨ ct = ColorType.t6)
    (length : Nat) (b : Buffer) :
    read_trns_chunk_data chunks length b = .err .UnexpectedtRNSChunk := by
  subst hchunks
  unfold read_trns_chunk_data get_color_type
  simp only [List.head?]
  rw [hdata]
  rcases hct with h | h <;> subst h <;> rfl

/-- Witness for the amended C8: a TruecolorAlpha header as first chunk,
then a Transparency chunk of declared length 0. -/
theorem trns_illegal_for_alpha_models_witness :
    read_trns_chunk_data
      [⟨13, .IHDR, .IHDR 1 1 .d8 .t6 0 0 .noInterlace, 0⟩] 0 (Buffer.new []) =
      .err .UnexpectedtRNSChunk :=
  trns_illegal_for_alpha_models _ _ [] 1 1 0 0 .d8 .noInterlace .t6 rfl rfl
    (Or.inr rfl) 0 (Buffer.new [])

/-- C9: the claim says a declared chunk length exceeding the remaining
bytes always fails with UnexpectedEndOfInput.  Because the Gamma reader
ignores its declared length (C4), this 36-byte input declares a Gamma
chunk of length 1000 — far beyond the 20 bytes that remain after its tag
— yet the whole decode SUCCEEDS.  (Readers that do honour the length,
such as `read_idat_chunk_data`, inherit the failure from the cursor,
which fails without advancing.) -/
theorem overlong_declared_length_can_succeed :
    c9_input.length = 36 ∧
    decode (Decoder.new c9_input) =
      .ok ((), ⟨⟨c9_input, 36⟩,
        [⟨1000, .gAMA, .gAMA 45455, 0⟩, ⟨0, .IEND, .IEND, 0⟩]⟩) := by
  refine ⟨by decide, by decide⟩

/-- C10: every successful `read_chunk` appends exactly one chunk at the
end of the list, leaving the previously appended chunks unchanged; and
with a non-empty chunk list (guaranteed after the first mandatory
`read_chunk` of `decode`) the driver loop's `.last().unwrap()` can never
be the panic source, for any fuel. -/
theorem read_chunk_appends_one_and_last_unwrap_safe :
    (∀ d d' : Decoder, read_chunk d = .ok d' →
      ∃ c, d'.chunks = d.chunks ++ [c]) ∧
    (∀ (fuel : Nat) (d : Decoder), d.chunks ≠ [] →
      decode_loop fuel d ≠ .panicked "called Option unwrap on a None value") :=
  ⟨read_chunk_appends, decode_loop_no_unwrap_panic⟩

/-- Witness for C10: reading the IEND chunk of `c10_input` from the
post-signature state appends exactly that one chunk, and one loop step
from the resulting non-empty state is not the unwrap panic. -/
theorem read_chunk_appends_one_and_last_unwrap_safe_witness :
    (∃ c, (⟨⟨c10_input, 20⟩, [⟨0, .IEND, .IEND, 7⟩]⟩ : Decoder).chunks =
      (⟨⟨c10_input, 8⟩, ([] : List Chunk)⟩ : Decoder).chunks ++ [c]) ∧
    decode_loop 1 ⟨⟨c10_input, 20⟩, [⟨0, .IEND, .IEND, 7⟩]⟩ ≠
      .panicked "called Option unwrap on a None value" := by
  constructor
  · exact read_chunk_appends_one_and_last_unwrap_safe.1
      ⟨⟨c10_input, 8⟩, []⟩ _ (by decide)
  · exact read_chunk_appends_one_and_last_unwrap_safe.2 1 _ (by decide)
